import Mathlib

/-!
Shallow embedding of `src/main.rs` of the airrohr-mqtt bridge.

The embedding covers the data model (`Sensor`, `SensorDataValue`, `Airrohr`,
`Measurement`, `Device`, `Entity`, `Config`), the bridge state (`Bridge`,
`BridgeDev`) and the request handler `api` together with the `Bridge`
methods `update_device`, `seen`, `supported`, `device_class`,
`unit_of_measurement`, `value_template`, `advertise` and `send_data`.

External collaborators are modelled as follows:
- The MQTT client is replaced by a publish log (`Pub`) plus an oracle
  (`List Bool`) giving the error results of successive `publish` calls in
  order (`true` = the call returned an error, matching `is_err()`); an
  exhausted oracle means every further publish succeeds.
- JSON deserialization of the inbound request body is external; `api`
  receives its result as an `Option Measurement` (`none` = parse error).
- JSON serialization of the outbound discovery config is modelled as total
  (the payload is carried structurally as a `Config` value); the
  `serde_json::to_string` error branch of `advertise` is unreachable for
  the plain string record being serialized and is not modelled.
- The mutex around the bridge is not modelled; `api` calls are a sequence.

HashMap/HashSet are modelled by association lists with `alookup` /
`memStr`; insertion order is irrelevant to every claim.
-/

set_option linter.unusedVariables false

namespace AirrohrMqtt

/-- Association list lookup, modelling `HashMap::get`. -/
def alookup {β : Type} : List (String × β) → String → Option β
  | [], _ => none
  | (k, x) :: rest, key => if k = key then some x else alookup rest key

/-- String list membership, modelling `HashSet::contains`. -/
def memStr : List String → String → Bool
  | [], _ => false
  | x :: xs, s => if x = s then true else memStr xs s

/-- Set insertion, modelling `HashSet::insert`. -/
def addStr (l : List String) (s : String) : List String :=
  if memStr l s then l else s :: l

/-- Update the value stored at a key, modelling `HashMap::get_mut` followed
by a mutation; a no-op when the key is absent. -/
def aupdate {β : Type} (l : List (String × β)) (key : String) (f : β → β) :
    List (String × β) :=
  l.map (fun p => if p.1 = key then (p.1, f p.2) else p)

/-- Catalog entry (`struct Sensor`, main.rs lines 14-19). -/
structure Sensor where
  «class» : String
  unit : String
  value_template : String
deriving DecidableEq

/-- One channel of a measurement (`struct SensorDataValue`, lines 21-25). -/
structure SensorDataValue where
  value_type : String
  value : String
deriving DecidableEq

/-- Device identity fields (`struct Airrohr`, lines 27-31). -/
structure Airrohr where
  esp8266id : String
  software_version : String
deriving DecidableEq

/-- Inbound measurement (`struct Measurement`, lines 33-38). -/
structure Measurement where
  airrohr : Airrohr
  sensordatavalues : List SensorDataValue
deriving DecidableEq

/-- Discovery device descriptor (`struct Device`, lines 40-47). -/
structure Device where
  identifiers : List String
  manufacturer : String
  model : String
  name : String
  sw_version : String
deriving DecidableEq

/-- Discovery entity descriptor (`struct Entity`, lines 49-57). -/
structure Entity where
  name : String
  state_topic : String
  unique_id : String
  device_class : String
  unit_of_measurement : String
  value_template : String
deriving DecidableEq

/-- Discovery payload (`struct Config`, lines 59-64). -/
structure Config where
  device : Device
  entity : Entity
deriving DecidableEq

/-- `Airrohr::name` (lines 67-69). -/
def Airrohr.name (a : Airrohr) : String :=
  "airrohr-" ++ a.esp8266id

/-- `Airrohr::state_topic` (lines 71-73). -/
def Airrohr.state_topic (a : Airrohr) (sensor : String) : String :=
  "airrohr/" ++ a.name ++ "/" ++ sensor

/-- `Entity::new` (lines 76-94): `None` as soon as one of the three
metadata fields is absent (the `?` operators). -/
def Entity.new (a : Airrohr) (sensor : String)
    (device_class unit_of_measurement value_template : Option String) :
    Option Entity :=
  match device_class, unit_of_measurement, value_template with
  | some dc, some u, some vt =>
      some { name := a.name ++ "-" ++ sensor
             state_topic := a.state_topic sensor
             unique_id := a.name ++ "-" ++ sensor
             device_class := dc
             unit_of_measurement := u
             value_template := vt }
  | _, _, _ => none

/-- `Device::new` (lines 96-110). -/
def Device.new (a : Airrohr) : Device :=
  { identifiers := [a.name, "Feinstaubsensor-" ++ a.esp8266id,
                    "Particulate Matter " ++ a.esp8266id]
    manufacturer := "Open Knowledge Lab Stuttgart a.o. (Code for Germany)"
    model := "Particulate matter sensor"
    name := a.name
    sw_version := a.software_version }

/-- Per-device registry record (`struct BridgeDev`, lines 112-114). -/
structure BridgeDev where
  sensors : List String
deriving DecidableEq

/-- `BridgeDev::new` (lines 116-122). -/
def BridgeDev.new : BridgeDev := ⟨[]⟩

/-- Bridge state (`struct Bridge`, lines 124-128) minus the MQTT client,
which is replaced by the publish log and oracle threaded through the
operations. -/
structure Bridge where
  devices : List (String × BridgeDev)
  sensors : List (String × Sensor)
deriving DecidableEq

/-- Message payload handed to the MQTT client: either a discovery config
(carried structurally; serialization is external) or a raw value string. -/
inductive Payload where
  | config (c : Config)
  | raw (s : String)
deriving DecidableEq

/-- One recorded `mqtt.publish` call: topic, payload and QoS level. -/
structure Pub where
  topic : String
  payload : Payload
  qos : Nat
deriving DecidableEq

/-- Pop one publish result from the oracle; an exhausted oracle means the
publish succeeds (`false` = no error). -/
def takeOracle : List Bool → Bool × List Bool
  | [] => (false, [])
  | r :: rest => (r, rest)

/-- `Bridge::update_device` (lines 149-152): `entry(..).or_insert_with`. -/
def Bridge.update_device (b : Bridge) (m : Measurement) : Bridge :=
  match alookup b.devices m.airrohr.name with
  | some _ => b
  | none => { b with devices := b.devices ++ [(m.airrohr.name, BridgeDev.new)] }

/-- `Bridge::seen` (lines 154-159). -/
def Bridge.seen (b : Bridge) (a : Airrohr) (sdv : SensorDataValue) : Bool :=
  match alookup b.devices a.name with
  | some d => memStr d.sensors sdv.value_type
  | none => false

/-- `Bridge::supported` (lines 161-163). -/
def Bridge.supported (b : Bridge) (v : SensorDataValue) : Bool :=
  (alookup b.sensors v.value_type).isSome

/-- `Bridge::device_class` (lines 165-167). -/
def Bridge.device_class (b : Bridge) (v : SensorDataValue) : Option String :=
  (alookup b.sensors v.value_type).map Sensor.«class»

/-- `Bridge::unit_of_measurement` (lines 169-171). -/
def Bridge.unit_of_measurement (b : Bridge) (v : SensorDataValue) : Option String :=
  (alookup b.sensors v.value_type).map Sensor.unit

/-- `Bridge::value_template` (lines 173-175). -/
def Bridge.value_template (b : Bridge) (v : SensorDataValue) : Option String :=
  (alookup b.sensors v.value_type).map Sensor.value_template

/-- The discovery topic string built in `advertise` (line 198). -/
def discTopic (a : Airrohr) (t : String) : String :=
  "homeassistant/sensor/" ++ a.name ++ "/" ++ t ++ "/config"

/-- The registry mutation at the end of `advertise` (lines 203-205):
insert the value_type into the device's announced set, a no-op when the
device is unknown. -/
def Bridge.mark (b : Bridge) (a : Airrohr) (v : SensorDataValue) : Bridge :=
  { b with devices := aupdate b.devices a.name fun d => ⟨addStr d.sensors v.value_type⟩ }

/-- Result of `Bridge::advertise`: the returned error flag, the mutated
bridge, the publishes performed and the remaining oracle. -/
structure AdvResult where
  err : Bool
  bridge : Bridge
  pubs : List Pub
  oracle : List Bool
deriving DecidableEq

/-- `Bridge::advertise` (lines 177-207): build the config (`None` from
`Entity::new` returns `false` with no publish and no mark), publish it at
QoS 1, then mark the channel announced REGARDLESS of the publish result,
and return the publish error flag. -/
def Bridge.advertise (b : Bridge) (a : Airrohr) (v : SensorDataValue)
    (oracle : List Bool) : AdvResult :=
  match Entity.new a v.value_type (b.device_class v) (b.unit_of_measurement v)
      (b.value_template v) with
  | none => ⟨false, b, [], oracle⟩
  | some e =>
      ⟨(takeOracle oracle).1, b.mark a v,
       [⟨discTopic a v.value_type, Payload.config ⟨Device.new a, e⟩, 1⟩],
       (takeOracle oracle).2⟩

/-- Result of `Bridge::send_data`: error flag, publishes, remaining oracle. -/
structure SendResult where
  err : Bool
  pubs : List Pub
  oracle : List Bool
deriving DecidableEq

/-- The state message built in `send_data` (lines 210-215). -/
def stateMsg (a : Airrohr) (v : SensorDataValue) : Pub :=
  ⟨a.state_topic v.value_type, Payload.raw v.value, 0⟩

/-- `Bridge::send_data` (lines 209-217): publish the raw value at QoS 0. -/
def Bridge.send_data (b : Bridge) (a : Airrohr) (v : SensorDataValue)
    (oracle : List Bool) : SendResult :=
  ⟨(takeOracle oracle).1, [stateMsg a v], (takeOracle oracle).2⟩

/-- HTTP statuses returned by the handler (plus `Unauthorized` for the
spec-modelled authorization variant). -/
inductive Status where
  | Ok
  | BadRequest
  | InternalServerError
  | Unauthorized
deriving DecidableEq

/-- Result of processing the channel loop. -/
structure ProcResult where
  status : Status
  bridge : Bridge
  pubs : List Pub
  oracle : List Bool
deriving DecidableEq

/-- The per-channel loop of `api` (lines 233-243): skip unsupported
channels; for fresh channels run `advertise` (short-circuit `&&`), then
`send_data` (short-circuit `||`); any error flag aborts the request with
InternalServerError. -/
def procChannels (a : Airrohr) : Bridge → List SensorDataValue → List Bool →
    ProcResult
  | b, [], o => ⟨Status.Ok, b, [], o⟩
  | b, v :: rest, o =>
    if b.supported v then
      if b.seen a v then
        let sd := b.send_data a v o
        if sd.err then ⟨Status.InternalServerError, b, sd.pubs, sd.oracle⟩
        else
          let r := procChannels a b rest sd.oracle
          ⟨r.status, r.bridge, sd.pubs ++ r.pubs, r.oracle⟩
      else
        let ad := b.advertise a v o
        if ad.err then ⟨Status.InternalServerError, ad.bridge, ad.pubs, ad.oracle⟩
        else
          let sd := ad.bridge.send_data a v ad.oracle
          if sd.err then
            ⟨Status.InternalServerError, ad.bridge, ad.pubs ++ sd.pubs, sd.oracle⟩
          else
            let r := procChannels a ad.bridge rest sd.oracle
            ⟨r.status, r.bridge, ad.pubs ++ sd.pubs ++ r.pubs, r.oracle⟩
    else procChannels a b rest o

/-- Result of one `api` call. -/
structure ApiResult where
  status : Status
  bridge : Bridge
  pubs : List Pub
deriving DecidableEq

/-- The request handler `api` (lines 220-245).  The already-deserialized
body arrives as `Option Measurement` (`none` models a serde parse error,
lines 226-231); the mutex-poisoning branch is not modelled. -/
def api (b : Bridge) (data : Option Measurement) (oracle : List Bool) :
    ApiResult :=
  match data with
  | none => ⟨Status.BadRequest, b, []⟩
  | some m =>
      let b1 := b.update_device m
      let r := procChannels m.airrohr b1 m.sensordatavalues oracle
      ⟨r.status, r.bridge, r.pubs⟩

/-- A sequence of handler calls within one process lifetime, collecting
every publish performed. -/
def runCalls : Bridge → List (Measurement × List Bool) → Bridge × List Pub
  | b, [] => (b, [])
  | b, (m, o) :: rest =>
      let r := api b (some m) o
      let rs := runCalls r.bridge rest
      (rs.1, r.pubs ++ rs.2)

/-- Modelled from the spec: the authorization-mode bridge state.  The
optional trust-on-first-use authorization mode (spec sections 4.3 and 4.4)
is absent from `src/`; per the spec the registry optionally stores "an
authorization token captured on first contact". -/
structure AuthBridge where
  bridge : Bridge
  keys : List (String × String)
deriving DecidableEq

/-- Modelled from the spec: `authorize(identity, presented_key) -> bool`
(trust-on-first-use): "if the device is unknown, store `presented_key` and
return true (accept); if known, return true only if `presented_key` equals
the stored key." -/
def authorize (ab : AuthBridge) (identity presented_key : String) :
    Bool × AuthBridge :=
  match alookup ab.keys identity with
  | some k => (decide (k = presented_key), ab)
  | none => (true, { ab with keys := ab.keys ++ [(identity, presented_key)] })

/-- Result of one authorization-mode handler call. -/
structure AuthResult where
  status : Status
  ab : AuthBridge
  pubs : List Pub
deriving DecidableEq

/-- Modelled from the spec: the handler with authorization mode enabled
(spec section 4.4, steps 1-2): derive the identity, call
`registry.authorize(identity, presented_key)`, and "if false, return
Unauthorized immediately without registry mutation beyond the authorize
call's own side effect"; otherwise continue as the `api` handler of the
code. -/
def apiAuth (ab : AuthBridge) (data : Option Measurement)
    (presented_key : String) (oracle : List Bool) : AuthResult :=
  match data with
  | none => ⟨Status.BadRequest, ab, []⟩
  | some m =>
      let auth := authorize ab m.airrohr.name presented_key
      if auth.1 then
        let r := api auth.2.bridge (some m) oracle
        ⟨r.status, { auth.2 with bridge := r.bridge }, r.pubs⟩
      else ⟨Status.Unauthorized, auth.2, []⟩

/-! ### Derived notions used by the theorems -/

/-- Whether the registry records a device with the given key. -/
def hasDev (b : Bridge) (k : String) : Bool :=
  (alookup b.devices k).isSome

/-- Whether the registry records value_type `t` as announced for the device
with hardware id `did`. -/
def markedB (b : Bridge) (did t : String) : Bool :=
  match alookup b.devices ("airrohr-" ++ did) with
  | some d => memStr d.sensors t
  | none => false

/-- Recognizes a logged publish as the discovery (config) message of the
device with hardware id `did` and value_type `t`: a config payload whose
device descriptor carries the vendor alias of `did` and whose entity points
at the state topic of `(did, t)`. -/
def isDiscFor (did t : String) (p : Pub) : Bool :=
  match p.payload with
  | Payload.config c =>
      decide (c.device.identifiers[1]? = some ("Feinstaubsensor-" ++ did)) &&
      decide (c.entity.state_topic = "airrohr/" ++ ("airrohr-" ++ did) ++ "/" ++ t)
  | Payload.raw _ => false

/-- Number of discovery publishes for the pair `(did, t)` in a log. -/
def discCount (did t : String) (l : List Pub) : Nat :=
  l.countP (isDiscFor did t)

/-- Whether a logged publish carries a discovery config payload. -/
def isConfigPub (p : Pub) : Bool :=
  match p.payload with
  | Payload.config _ => true
  | Payload.raw _ => false

/-! ### Helper lemmas: strings -/

theorem str_assoc (s t u : String) : (s ++ t) ++ u = s ++ (t ++ u) := by
  apply String.ext
  simp [String.data_append]

theorem str_cancel_left {s x y : String} (h : s ++ x = s ++ y) : x = y := by
  have hd := congrArg String.data h
  simp [String.data_append] at hd
  exact String.ext hd

theorem str_cancel_both {s t : String} {x y : String}
    (h : s ++ x ++ t = s ++ y ++ t) : x = y := by
  have hd := congrArg String.data h
  simp [String.data_append] at hd
  exact String.ext hd

/-! ### Helper lemmas: association lists and string sets -/

theorem alookup_append {β : Type} (l l' : List (String × β)) (k : String) :
    alookup (l ++ l') k =
      match alookup l k with
      | some x => some x
      | none => alookup l' k := by
  induction l with
  | nil => simp [alookup]
  | cons p rest ih =>
      by_cases h : p.1 = k
      · simp [alookup, h]
      · simp [alookup, h, ih]

theorem alookup_aupdate {β : Type} (l : List (String × β)) (key k : String)
    (f : β → β) :
    alookup (aupdate l key f) k =
      if k = key then (alookup l k).map f else alookup l k := by
  induction l with
  | nil => simp [alookup, aupdate]
  | cons p rest ih =>
      obtain ⟨k0, x⟩ := p
      have hmap : aupdate ((k0, x) :: rest) key f =
          (if k0 = key then (k0, f x) else (k0, x)) :: aupdate rest key f := by
        simp [aupdate]
      rw [hmap]
      by_cases hpk : k0 = key
      · rw [if_pos hpk]
        by_cases hk0k : k0 = k
        · have hk : k = key := by rw [← hk0k, hpk]
          simp [alookup, hk0k, hk]
        · have hk : ¬ k = key := fun hc => hk0k (by rw [hpk, hc])
          simp [alookup, hk0k, hk, ih]
      · rw [if_neg hpk]
        by_cases hk0k : k0 = k
        · have hk : ¬ k = key := fun hc => hpk (by rw [hk0k, hc])
          simp [alookup, hk0k, hk]
        · simp [alookup, hk0k, ih]

theorem memStr_addStr_self (l : List String) (s : String) :
    memStr (addStr l s) s = true := by
  unfold addStr
  by_cases h : memStr l s = true
  · simp [h]
  · simp [h, memStr]

theorem memStr_addStr_of_ne (l : List String) {s t : String} (h : t ≠ s) :
    memStr (addStr l s) t = memStr l t := by
  unfold addStr
  by_cases hm : memStr l s = true
  · simp [hm]
  · simp [hm, memStr]
    intro hc
    exact (h hc.symm).elim

theorem memStr_addStr_mono (l : List String) {s t : String}
    (h : memStr l t = true) : memStr (addStr l s) t = true := by
  by_cases he : t = s
  · subst he; exact memStr_addStr_self l t
  · rw [memStr_addStr_of_ne l he]; exact h

/-! ### Helper lemmas: registry state -/

theorem seen_eq_markedB (b : Bridge) (a : Airrohr) (v : SensorDataValue) :
    b.seen a v = markedB b a.esp8266id v.value_type := rfl

theorem alookup_mark (b : Bridge) (a : Airrohr) (v : SensorDataValue) (k : String) :
    alookup (b.mark a v).devices k =
      if k = a.name then
        (alookup b.devices k).map (fun d => ⟨addStr d.sensors v.value_type⟩)
      else alookup b.devices k := by
  simp [Bridge.mark, alookup_aupdate]

theorem hasDev_mark (b : Bridge) (a : Airrohr) (v : SensorDataValue) (k : String) :
    hasDev (b.mark a v) k = hasDev b k := by
  unfold hasDev
  rw [alookup_mark]
  split
  · cases alookup b.devices k <;> simp
  · rfl

theorem sensors_mark (b : Bridge) (a : Airrohr) (v : SensorDataValue) :
    (b.mark a v).sensors = b.sensors := rfl

theorem markedB_mark_hit (b : Bridge) (a : Airrohr) (v : SensorDataValue)
    (hdev : hasDev b a.name = true) :
    markedB (b.mark a v) a.esp8266id v.value_type = true := by
  unfold hasDev at hdev
  cases hd : alookup b.devices a.name with
  | none => rw [hd] at hdev; simp at hdev
  | some d =>
      have hk : ("airrohr-" ++ a.esp8266id : String) = a.name := rfl
      simp [markedB, alookup_mark, hk, hd, memStr_addStr_self]

theorem markedB_mark_ne_id (b : Bridge) (a : Airrohr) (v : SensorDataValue)
    {did t : String} (h : a.esp8266id ≠ did) :
    markedB (b.mark a v) did t = markedB b did t := by
  have hk : ¬ ("airrohr-" ++ did : String) = a.name := by
    intro hc
    have hc' : ("airrohr-" ++ a.esp8266id : String) = "airrohr-" ++ did := hc.symm
    exact h (str_cancel_left hc')
  simp [markedB, alookup_mark, hk]

theorem markedB_mark_ne_t (b : Bridge) (a : Airrohr) (v : SensorDataValue)
    {did t : String} (h : v.value_type ≠ t) :
    markedB (b.mark a v) did t = markedB b did t := by
  unfold markedB
  rw [alookup_mark]
  by_cases hk : ("airrohr-" ++ did : String) = a.name
  · rw [if_pos hk]
    cases alookup b.devices ("airrohr-" ++ did) with
    | none => rfl
    | some d => simp [memStr_addStr_of_ne d.sensors (fun hc => h hc.symm)]
  · rw [if_neg hk]

theorem markedB_mark_mono (b : Bridge) (a : Airrohr) (v : SensorDataValue)
    {did t : String} (h : markedB b did t = true) :
    markedB (b.mark a v) did t = true := by
  unfold markedB at *
  rw [alookup_mark]
  by_cases hk : ("airrohr-" ++ did : String) = a.name
  · rw [if_pos hk]
    cases hd : alookup b.devices ("airrohr-" ++ did) with
    | none => rw [hd] at h; simp at h
    | some d =>
        rw [hd] at h
        simp [memStr_addStr_mono d.sensors h]
  · rw [if_neg hk]; exact h

theorem sensors_update (b : Bridge) (m : Measurement) :
    (b.update_device m).sensors = b.sensors := by
  unfold Bridge.update_device
  cases alookup b.devices m.airrohr.name <;> rfl

theorem hasDev_update_self (b : Bridge) (m : Measurement) :
    hasDev (b.update_device m) m.airrohr.name = true := by
  unfold Bridge.update_device hasDev
  cases hd : alookup b.devices m.airrohr.name with
  | some d => simp [hd]
  | none => simp [alookup_append, hd, alookup]

theorem markedB_update (b : Bridge) (m : Measurement) (did t : String) :
    markedB (b.update_device m) did t = markedB b did t := by
  unfold Bridge.update_device
  cases hd : alookup b.devices m.airrohr.name with
  | some d => rfl
  | none =>
      unfold markedB
      simp only [alookup_append, hd]
      cases hk : alookup b.devices ("airrohr-" ++ did) with
      | some d => rfl
      | none =>
          by_cases he : m.airrohr.name = ("airrohr-" ++ did : String)
          · simp [alookup, he, BridgeDev.new, memStr]
          · simp [alookup, he]

theorem supported_congr {b1 b2 : Bridge} (h : b1.sensors = b2.sensors)
    (v : SensorDataValue) : b1.supported v = b2.supported v := by
  unfold Bridge.supported
  rw [h]

/-! ### Step equations for the channel loop -/

theorem entity_of_supported (b : Bridge) (a : Airrohr) (v : SensorDataValue)
    (h : b.supported v = true) :
    ∃ meta, alookup b.sensors v.value_type = some meta ∧
      Entity.new a v.value_type (b.device_class v) (b.unit_of_measurement v)
          (b.value_template v) =
        some ⟨a.name ++ "-" ++ v.value_type, a.state_topic v.value_type,
              a.name ++ "-" ++ v.value_type, meta.«class», meta.unit,
              meta.value_template⟩ := by
  unfold Bridge.supported at h
  cases hm : alookup b.sensors v.value_type with
  | none => rw [hm] at h; simp at h
  | some meta =>
      refine ⟨meta, rfl, ?_⟩
      simp [Bridge.device_class, Bridge.unit_of_measurement, Bridge.value_template,
        hm, Entity.new]

theorem procChannels_nil (a : Airrohr) (b : Bridge) (o : List Bool) :
    procChannels a b [] o = ⟨Status.Ok, b, [], o⟩ := rfl

theorem procChannels_cons_unsupported (a : Airrohr) (b : Bridge)
    (v : SensorDataValue) (rest : List SensorDataValue) (o : List Bool)
    (h : b.supported v = false) :
    procChannels a b (v :: rest) o = procChannels a b rest o := by
  simp [procChannels, h]

theorem procChannels_cons_seen (a : Airrohr) (b : Bridge) (v : SensorDataValue)
    (rest : List SensorDataValue) (o : List Bool)
    (hsup : b.supported v = true) (hseen : b.seen a v = true) :
    procChannels a b (v :: rest) o =
      if (takeOracle o).1 then
        ⟨Status.InternalServerError, b, [stateMsg a v], (takeOracle o).2⟩
      else
        let r := procChannels a b rest (takeOracle o).2
        ⟨r.status, r.bridge, stateMsg a v :: r.pubs, r.oracle⟩ := by
  by_cases he : (takeOracle o).1
  · simp [procChannels, hsup, hseen, Bridge.send_data, he]
  · simp [procChannels, hsup, hseen, Bridge.send_data, he]

theorem procChannels_cons_fresh (a : Airrohr) (b : Bridge) (v : SensorDataValue)
    (rest : List SensorDataValue) (o : List Bool) (e : Entity)
    (hsup : b.supported v = true) (hseen : b.seen a v = false)
    (he : Entity.new a v.value_type (b.device_class v) (b.unit_of_measurement v)
        (b.value_template v) = some e) :
    procChannels a b (v :: rest) o =
      (if (takeOracle o).1 then
        ⟨Status.InternalServerError, b.mark a v,
         [⟨discTopic a v.value_type, Payload.config ⟨Device.new a, e⟩, 1⟩],
         (takeOracle o).2⟩
      else if (takeOracle (takeOracle o).2).1 then
        ⟨Status.InternalServerError, b.mark a v,
         [⟨discTopic a v.value_type, Payload.config ⟨Device.new a, e⟩, 1⟩,
          stateMsg a v],
         (takeOracle (takeOracle o).2).2⟩
      else
        let r := procChannels a (b.mark a v) rest (takeOracle (takeOracle o).2).2
        ⟨r.status, r.bridge,
         ⟨discTopic a v.value_type, Payload.config ⟨Device.new a, e⟩, 1⟩ ::
           stateMsg a v :: r.pubs,
         r.oracle⟩ : ProcResult) := by
  by_cases h1 : (takeOracle o).1
  · simp [procChannels, hsup, hseen, Bridge.advertise, Bridge.send_data, he, h1]
  · by_cases h2 : (takeOracle (takeOracle o).2).1
    · simp [procChannels, hsup, hseen, Bridge.advertise, Bridge.send_data, he, h1, h2]
    · simp [procChannels, hsup, hseen, Bridge.advertise, Bridge.send_data, he, h1, h2]

/-! ### Invariance of the bridge state along the loop -/

theorem sensors_proc (a : Airrohr) (l : List SensorDataValue) :
    ∀ (b : Bridge) (o : List Bool),
      ((procChannels a b l o).bridge).sensors = b.sensors := by
  induction l with
  | nil => intro b o; rfl
  | cons v rest ih =>
      intro b o
      by_cases hsup : b.supported v = true
      · by_cases hseen : b.seen a v = true
        · rw [procChannels_cons_seen a b v rest o hsup hseen]
          by_cases h1 : (takeOracle o).1 <;> simp [h1, ih]
        · have hseen' : b.seen a v = false := by
            simpa using hseen
          obtain ⟨meta, hm, he⟩ := entity_of_supported b a v hsup
          rw [procChannels_cons_fresh a b v rest o _ hsup hseen' he]
          by_cases h1 : (takeOracle o).1
          · simp [h1, sensors_mark]
          · by_cases h2 : (takeOracle (takeOracle o).2).1
            · simp [h1, h2, sensors_mark]
            · simp [h1, h2, ih, sensors_mark]
      · have hsup' : b.supported v = false := by simpa using hsup
        rw [procChannels_cons_unsupported a b v rest o hsup']
        exact ih b o

theorem hasDev_proc (a : Airrohr) (l : List SensorDataValue) (k : String) :
    ∀ (b : Bridge) (o : List Bool), hasDev b k = true →
      hasDev ((procChannels a b l o).bridge) k = true := by
  induction l with
  | nil => intro b o h; exact h
  | cons v rest ih =>
      intro b o h
      by_cases hsup : b.supported v = true
      · by_cases hseen : b.seen a v = true
        · rw [procChannels_cons_seen a b v rest o hsup hseen]
          by_cases h1 : (takeOracle o).1 <;> simp [h1, ih b _ h, h]
        · have hseen' : b.seen a v = false := by simpa using hseen
          obtain ⟨meta, hm, he⟩ := entity_of_supported b a v hsup
          rw [procChannels_cons_fresh a b v rest o _ hsup hseen' he]
          have hmk : hasDev (b.mark a v) k = true := by rw [hasDev_mark]; exact h
          by_cases h1 : (takeOracle o).1
          · simp [h1, hmk]
          · by_cases h2 : (takeOracle (takeOracle o).2).1
            · simp [h1, h2, hmk]
            · simp [h1, h2, ih _ _ hmk]
      · have hsup' : b.supported v = false := by simpa using hsup
        rw [procChannels_cons_unsupported a b v rest o hsup']
        exact ih b o h

theorem markedB_proc_mono (a : Airrohr) (l : List SensorDataValue)
    (did t : String) :
    ∀ (b : Bridge) (o : List Bool), markedB b did t = true →
      markedB ((procChannels a b l o).bridge) did t = true := by
  induction l with
  | nil => intro b o h; exact h
  | cons v rest ih =>
      intro b o h
      by_cases hsup : b.supported v = true
      · by_cases hseen : b.seen a v = true
        · rw [procChannels_cons_seen a b v rest o hsup hseen]
          by_cases h1 : (takeOracle o).1 <;> simp [h1, ih b _ h, h]
        · have hseen' : b.seen a v = false := by simpa using hseen
          obtain ⟨meta, hm, he⟩ := entity_of_supported b a v hsup
          rw [procChannels_cons_fresh a b v rest o _ hsup hseen' he]
          have hmk : markedB (b.mark a v) did t = true := markedB_mark_mono b a v h
          by_cases h1 : (takeOracle o).1
          · simp [h1, hmk]
          · by_cases h2 : (takeOracle (takeOracle o).2).1
            · simp [h1, h2, hmk]
            · simp [h1, h2, ih _ _ hmk]
      · have hsup' : b.supported v = false := by simpa using hsup
        rw [procChannels_cons_unsupported a b v rest o hsup']
        exact ih b o h

theorem procChannels_nil_oracle (a : Airrohr) (l : List SensorDataValue) :
    ∀ b : Bridge, (procChannels a b l []).status = Status.Ok ∧
      (procChannels a b l []).oracle = [] := by
  induction l with
  | nil => intro b; exact ⟨rfl, rfl⟩
  | cons v rest ih =>
      intro b
      by_cases hsup : b.supported v = true
      · by_cases hseen : b.seen a v = true
        · rw [procChannels_cons_seen a b v rest [] hsup hseen]
          simpa [takeOracle] using ih b
        · have hseen' : b.seen a v = false := by simpa using hseen
          obtain ⟨meta, hm, he⟩ := entity_of_supported b a v hsup
          rw [procChannels_cons_fresh a b v rest [] _ hsup hseen' he]
          simpa [takeOracle] using ih (b.mark a v)
      · have hsup' : b.supported v = false := by simpa using hsup
        rw [procChannels_cons_unsupported a b v rest [] hsup']
        exact ih b

theorem procChannels_append_ok (a : Airrohr) (pre : List SensorDataValue) :
    ∀ (b : Bridge) (o : List Bool) (rest : List SensorDataValue),
      (procChannels a b pre o).status = Status.Ok →
      procChannels a b (pre ++ rest) o =
        ⟨(procChannels a ((procChannels a b pre o).bridge) rest
            ((procChannels a b pre o).oracle)).status,
         (procChannels a ((procChannels a b pre o).bridge) rest
            ((procChannels a b pre o).oracle)).bridge,
         (procChannels a b pre o).pubs ++
           (procChannels a ((procChannels a b pre o).bridge) rest
              ((procChannels a b pre o).oracle)).pubs,
         (procChannels a ((procChannels a b pre o).bridge) rest
            ((procChannels a b pre o).oracle)).oracle⟩ := by
  induction pre with
  | nil => intro b o rest hok; simp [procChannels_nil]
  | cons v pre' ih =>
      intro b o rest hok
      by_cases hsup : b.supported v = true
      · by_cases hseen : b.seen a v = true
        · rw [procChannels_cons_seen a b v pre' o hsup hseen] at hok
          rw [List.cons_append, procChannels_cons_seen a b v (pre' ++ rest) o hsup hseen,
            procChannels_cons_seen a b v pre' o hsup hseen]
          by_cases h1 : (takeOracle o).1
          · rw [if_pos h1] at hok; simp at hok
          · have hok' : (procChannels a b pre' (takeOracle o).2).status = Status.Ok := by
              rw [if_neg h1] at hok; simpa using hok
            simp only [if_neg h1]
            rw [ih b (takeOracle o).2 rest hok']
            simp
        · have hseen' : b.seen a v = false := by simpa using hseen
          obtain ⟨meta, hm, he⟩ := entity_of_supported b a v hsup
          rw [procChannels_cons_fresh a b v pre' o _ hsup hseen' he] at hok
          rw [List.cons_append,
            procChannels_cons_fresh a b v (pre' ++ rest) o _ hsup hseen' he,
            procChannels_cons_fresh a b v pre' o _ hsup hseen' he]
          by_cases h1 : (takeOracle o).1
          · rw [if_pos h1] at hok; simp at hok
          · by_cases h2 : (takeOracle (takeOracle o).2).1
            · rw [if_neg h1, if_pos h2] at hok; simp at hok
            · have hok' : (procChannels a (b.mark a v) pre'
                  (takeOracle (takeOracle o).2).2).status = Status.Ok := by
                rw [if_neg h1, if_neg h2] at hok; simpa using hok
              simp only [if_neg h1, if_neg h2]
              rw [ih (b.mark a v) (takeOracle (takeOracle o).2).2 rest hok']
              simp
      · have hsup' : b.supported v = false := by simpa using hsup
        rw [procChannels_cons_unsupported a b v pre' o hsup'] at hok
        rw [List.cons_append,
          procChannels_cons_unsupported a b v (pre' ++ rest) o hsup',
          procChannels_cons_unsupported a b v pre' o hsup']
        exact ih b o rest hok

/-! ### Counting discovery publishes -/

theorem isDiscFor_stateMsg (did t : String) (a : Airrohr) (v : SensorDataValue) :
    isDiscFor did t (stateMsg a v) = false := rfl

theorem isDiscFor_discPub (a : Airrohr) (vt : String) (e : Entity)
    (he : e.state_topic = a.state_topic vt) (did t : String)
    (topic : String) (q : Nat) :
    isDiscFor did t ⟨topic, Payload.config ⟨Device.new a, e⟩, q⟩ =
      (decide (a.esp8266id = did) && decide (vt = t)) := by
  have hst : a.state_topic vt =
      ("airrohr/" ++ ("airrohr-" ++ a.esp8266id) ++ "/") ++ vt := rfl
  by_cases h1 : a.esp8266id = did
  · by_cases h2 : vt = t
    · subst h1; subst h2
      simp [isDiscFor, Device.new, he, hst, Airrohr.state_topic, Airrohr.name]
    · subst h1
      have hne : ¬ (e.state_topic =
          "airrohr/" ++ ("airrohr-" ++ a.esp8266id) ++ "/" ++ t) := by
        rw [he, hst]
        intro hc
        exact h2 (str_cancel_left hc)
      simp [isDiscFor, Device.new, hne, h2]
  · have hne : ¬ (("Feinstaubsensor-" ++ a.esp8266id : String) =
        "Feinstaubsensor-" ++ did) := fun hc => h1 (str_cancel_left hc)
    simp [isDiscFor, Device.new, hne, h1]

theorem markedB_of_seen_hit (b : Bridge) (a : Airrohr) (v : SensorDataValue)
    {did t : String} (h1 : a.esp8266id = did) (h2 : v.value_type = t) :
    markedB b did t = b.seen a v := by
  rw [seen_eq_markedB, h1, h2]

theorem procChannels_discCount_marked (a : Airrohr) (did t : String)
    (l : List SensorDataValue) :
    ∀ (b : Bridge) (o : List Bool), markedB b did t = true →
      discCount did t (procChannels a b l o).pubs = 0 := by
  induction l with
  | nil => intro b o h; rfl
  | cons v rest ih =>
      intro b o h
      by_cases hsup : b.supported v = true
      · by_cases hseen : b.seen a v = true
        · rw [procChannels_cons_seen a b v rest o hsup hseen]
          by_cases h1 : (takeOracle o).1
          · simp [h1, discCount, isDiscFor_stateMsg]
          · simp [h1, discCount, isDiscFor_stateMsg, List.countP_cons]
            have := ih b (takeOracle o).2 h
            simpa [discCount] using this
        · have hseen' : b.seen a v = false := by simpa using hseen
          obtain ⟨meta, hm, he⟩ := entity_of_supported b a v hsup
          rw [procChannels_cons_fresh a b v rest o _ hsup hseen' he]
          have hnothit : isDiscFor did t
              ⟨discTopic a v.value_type, Payload.config ⟨Device.new a,
                ⟨a.name ++ "-" ++ v.value_type, a.state_topic v.value_type,
                 a.name ++ "-" ++ v.value_type, meta.«class», meta.unit,
                 meta.value_template⟩⟩, 1⟩ = false := by
            rw [isDiscFor_discPub a v.value_type _ rfl did t]
            by_cases hid : a.esp8266id = did
            · by_cases hvt : v.value_type = t
              · rw [markedB_of_seen_hit b a v hid hvt] at h
                rw [h] at hseen'
                cases hseen'
              · simp [hvt]
            · simp [hid]
          have hmono : markedB (b.mark a v) did t = true := markedB_mark_mono b a v h
          by_cases h1 : (takeOracle o).1
          · simp [h1, discCount, List.countP_cons, hnothit]
          · by_cases h2 : (takeOracle (takeOracle o).2).1
            · simp [h1, h2, discCount, List.countP_cons, hnothit, isDiscFor_stateMsg]
            · have := ih (b.mark a v) (takeOracle (takeOracle o).2).2 hmono
              simp [h1, h2, discCount, List.countP_cons, hnothit, isDiscFor_stateMsg]
              simpa [discCount] using this
      · have hsup' : b.supported v = false := by simpa using hsup
        rw [procChannels_cons_unsupported a b v rest o hsup']
        exact ih b o h

theorem procChannels_discCount_unmarked (a : Airrohr) (did t : String)
    (l : List SensorDataValue) :
    ∀ (b : Bridge) (o : List Bool), hasDev b a.name = true →
      markedB b did t = false →
      discCount did t (procChannels a b l o).pubs ≤ 1 ∧
      (markedB ((procChannels a b l o).bridge) did t = false →
        discCount did t (procChannels a b l o).pubs = 0) := by
  induction l with
  | nil => intro b o hdev h; exact ⟨by simp [procChannels_nil, discCount], fun _ => rfl⟩
  | cons v rest ih =>
      intro b o hdev h
      by_cases hsup : b.supported v = true
      · by_cases hseen : b.seen a v = true
        · rw [procChannels_cons_seen a b v rest o hsup hseen]
          by_cases h1 : (takeOracle o).1
          · simp [h1, discCount, isDiscFor_stateMsg, h]
          · have := ih b (takeOracle o).2 hdev h
            simp only [h1, if_neg, if_false]
            simp [discCount, List.countP_cons, isDiscFor_stateMsg]
            simpa [discCount] using this
        · have hseen' : b.seen a v = false := by simpa using hseen
          obtain ⟨meta, hm, he⟩ := entity_of_supported b a v hsup
          rw [procChannels_cons_fresh a b v rest o _ hsup hseen' he]
          have hdisc : isDiscFor did t
              ⟨discTopic a v.value_type, Payload.config ⟨Device.new a,
                ⟨a.name ++ "-" ++ v.value_type, a.state_topic v.value_type,
                 a.name ++ "-" ++ v.value_type, meta.«class», meta.unit,
                 meta.value_template⟩⟩, 1⟩ =
              (decide (a.esp8266id = did) && decide (v.value_type = t)) :=
            isDiscFor_discPub a v.value_type _ rfl did t _ _
          by_cases hid : a.esp8266id = did
          · by_cases hvt : v.value_type = t
            · -- the hit: this step publishes the pair's discovery and marks it
              have hcount1 : isDiscFor did t
                  ⟨discTopic a v.value_type, Payload.config ⟨Device.new a,
                    ⟨a.name ++ "-" ++ v.value_type, a.state_topic v.value_type,
                     a.name ++ "-" ++ v.value_type, meta.«class», meta.unit,
                     meta.value_template⟩⟩, 1⟩ = true := by
                rw [hdisc]; simp [hid, hvt]
              have hmarked : markedB (b.mark a v) did t = true := by
                rw [← hid, ← hvt]
                exact markedB_mark_hit b a v hdev
              by_cases h1 : (takeOracle o).1
              · simp [h1, discCount, List.countP_cons, hcount1, hmarked]
              · by_cases h2 : (takeOracle (takeOracle o).2).1
                · simp [h1, h2, discCount, List.countP_cons, hcount1,
                    isDiscFor_stateMsg, hmarked]
                · have hrest := procChannels_discCount_marked a did t rest
                    (b.mark a v) (takeOracle (takeOracle o).2).2 hmarked
                  have hmono := markedB_proc_mono a rest did t (b.mark a v)
                    (takeOracle (takeOracle o).2).2 hmarked
                  simp [h1, h2, discCount, List.countP_cons, hcount1,
                    isDiscFor_stateMsg, hmono]
                  simpa [discCount] using hrest
            · have hcount0 : isDiscFor did t
                  ⟨discTopic a v.value_type, Payload.config ⟨Device.new a,
                    ⟨a.name ++ "-" ++ v.value_type, a.state_topic v.value_type,
                     a.name ++ "-" ++ v.value_type, meta.«class», meta.unit,
                     meta.value_template⟩⟩, 1⟩ = false := by
                rw [hdisc]; simp [hvt]
              have hunm : markedB (b.mark a v) did t = false := by
                rw [markedB_mark_ne_t b a v hvt]; exact h
              have hdev' : hasDev (b.mark a v) a.name = true := by
                rw [hasDev_mark]; exact hdev
              by_cases h1 : (takeOracle o).1
              · simp [h1, discCount, List.countP_cons, hcount0, hunm]
              · by_cases h2 : (takeOracle (takeOracle o).2).1
                · simp [h1, h2, discCount, List.countP_cons, hcount0,
                    isDiscFor_stateMsg, hunm]
                · have := ih (b.mark a v) (takeOracle (takeOracle o).2).2 hdev' hunm
                  simp [h1, h2, discCount, List.countP_cons, hcount0,
                    isDiscFor_stateMsg]
                  simpa [discCount] using this
          · have hcount0 : isDiscFor did t
                ⟨discTopic a v.value_type, Payload.config ⟨Device.new a,
                  ⟨a.name ++ "-" ++ v.value_type, a.state_topic v.value_type,
                   a.name ++ "-" ++ v.value_type, meta.«class», meta.unit,
                   meta.value_template⟩⟩, 1⟩ = false := by
              rw [hdisc]; simp [hid]
            have hunm : markedB (b.mark a v) did t = false := by
              rw [markedB_mark_ne_id b a v hid]; exact h
            have hdev' : hasDev (b.mark a v) a.name = true := by
              rw [hasDev_mark]; exact hdev
            by_cases h1 : (takeOracle o).1
            · simp [h1, discCount, List.countP_cons, hcount0, hunm]
            · by_cases h2 : (takeOracle (takeOracle o).2).1
              · simp [h1, h2, discCount, List.countP_cons, hcount0,
                  isDiscFor_stateMsg, hunm]
              · have := ih (b.mark a v) (takeOracle (takeOracle o).2).2 hdev' hunm
                simp [h1, h2, discCount, List.countP_cons, hcount0,
                  isDiscFor_stateMsg]
                simpa [discCount] using this
      · have hsup' : b.supported v = false := by simpa using hsup
        rw [procChannels_cons_unsupported a b v rest o hsup']
        exact ih b o hdev h

theorem discCount_append (did t : String) (l1 l2 : List Pub) :
    discCount did t (l1 ++ l2) = discCount did t l1 + discCount did t l2 := by
  simp [discCount, List.countP_append]

theorem api_some (b : Bridge) (m : Measurement) (o : List Bool) :
    api b (some m) o =
      ⟨(procChannels m.airrohr (b.update_device m) m.sensordatavalues o).status,
       (procChannels m.airrohr (b.update_device m) m.sensordatavalues o).bridge,
       (procChannels m.airrohr (b.update_device m) m.sensordatavalues o).pubs⟩ := rfl

theorem api_discCount (b : Bridge) (m : Measurement) (o : List Bool)
    (did t : String) :
    (markedB b did t = true →
       discCount did t (api b (some m) o).pubs = 0 ∧
       markedB ((api b (some m) o).bridge) did t = true) ∧
    (markedB b did t = false →
       discCount did t (api b (some m) o).pubs ≤ 1 ∧
       (markedB ((api b (some m) o).bridge) did t = false →
         discCount did t (api b (some m) o).pubs = 0)) := by
  rw [api_some]
  constructor
  · intro h
    have h' : markedB (b.update_device m) did t = true := by
      rw [markedB_update]; exact h
    exact ⟨procChannels_discCount_marked _ did t _ _ o h',
           markedB_proc_mono _ _ did t _ o h'⟩
  · intro h
    have h' : markedB (b.update_device m) did t = false := by
      rw [markedB_update]; exact h
    exact procChannels_discCount_unmarked _ did t _ _ o (hasDev_update_self b m) h'

theorem runCalls_discCount (did t : String)
    (calls : List (Measurement × List Bool)) :
    ∀ b : Bridge,
      (markedB b did t = true → discCount did t (runCalls b calls).2 = 0) ∧
      (markedB b did t = false → discCount did t (runCalls b calls).2 ≤ 1) := by
  induction calls with
  | nil =>
      intro b
      exact ⟨fun _ => rfl, fun _ => by simp [runCalls, discCount]⟩
  | cons c rest ih =>
      obtain ⟨m, o⟩ := c
      intro b
      have happ : (runCalls b ((m, o) :: rest)).2 =
          (api b (some m) o).pubs ++ (runCalls ((api b (some m) o).bridge) rest).2 := rfl
      have hapi := api_discCount b m o did t
      have hih := ih ((api b (some m) o).bridge)
      constructor
      · intro h
        obtain ⟨hc0, hmk⟩ := hapi.1 h
        have hr0 := hih.1 hmk
        rw [happ, discCount_append, hc0, hr0]
      · intro h
        obtain ⟨hc1, himp⟩ := hapi.2 h
        rw [happ, discCount_append]
        by_cases hmk : markedB ((api b (some m) o).bridge) did t = true
        · have hr0 := hih.1 hmk
          rw [hr0]
          omega
        · have hmk' : markedB ((api b (some m) o).bridge) did t = false := by
            simpa using hmk
          have hr1 := hih.2 hmk'
          have hc0 := himp hmk'
          rw [hc0]
          omega

/-! ### Per-publish QoS, state-message membership, and replay lemmas -/

theorem procChannels_qos (a : Airrohr) (l : List SensorDataValue) :
    ∀ (b : Bridge) (o : List Bool) (p : Pub), p ∈ (procChannels a b l o).pubs →
      (isConfigPub p = true → p.qos = 1) ∧ (isConfigPub p = false → p.qos = 0) := by
  induction l with
  | nil => intro b o p hp; rw [procChannels_nil] at hp; cases hp
  | cons v rest ih =>
      intro b o p hp
      by_cases hsup : b.supported v = true
      · by_cases hseen : b.seen a v = true
        · rw [procChannels_cons_seen a b v rest o hsup hseen] at hp
          by_cases h1 : (takeOracle o).1
          · rw [if_pos h1] at hp
            simp at hp
            subst hp
            exact ⟨fun hc => Bool.noConfusion hc, fun _ => rfl⟩
          · rw [if_neg h1] at hp
            simp only [List.mem_cons] at hp
            rcases hp with hp | hp
            · subst hp
              exact ⟨fun hc => Bool.noConfusion hc, fun _ => rfl⟩
            · exact ih b (takeOracle o).2 p hp
        · have hseen' : b.seen a v = false := by simpa using hseen
          obtain ⟨meta, hm, he⟩ := entity_of_supported b a v hsup
          rw [procChannels_cons_fresh a b v rest o _ hsup hseen' he] at hp
          by_cases h1 : (takeOracle o).1
          · rw [if_pos h1] at hp
            simp at hp
            subst hp
            exact ⟨fun _ => rfl, fun hc => Bool.noConfusion hc⟩
          · by_cases h2 : (takeOracle (takeOracle o).2).1
            · rw [if_neg h1, if_pos h2] at hp
              simp only [List.mem_cons] at hp
              rcases hp with hp | hp
              · subst hp
                exact ⟨fun _ => rfl, fun hc => Bool.noConfusion hc⟩
              · simp at hp
                subst hp
                exact ⟨fun hc => Bool.noConfusion hc, fun _ => rfl⟩
            · rw [if_neg h1, if_neg h2] at hp
              simp only [List.mem_cons] at hp
              rcases hp with hp | hp | hp
              · subst hp
                exact ⟨fun _ => rfl, fun hc => Bool.noConfusion hc⟩
              · subst hp
                exact ⟨fun hc => Bool.noConfusion hc, fun _ => rfl⟩
              · exact ih (b.mark a v) (takeOracle (takeOracle o).2).2 p hp
      · have hsup' : b.supported v = false := by simpa using hsup
        rw [procChannels_cons_unsupported a b v rest o hsup'] at hp
        exact ih b o p hp

theorem procChannels_state_mem (a : Airrohr) (l : List SensorDataValue) :
    ∀ (b : Bridge) (o : List Bool),
      (procChannels a b l o).status = Status.Ok →
      ∀ v ∈ l, b.supported v = true →
        stateMsg a v ∈ (procChannels a b l o).pubs := by
  induction l with
  | nil => intro b o hok v hv; cases hv
  | cons w rest ih =>
      intro b o hok v hv hsupv
      by_cases hsup : b.supported w = true
      · by_cases hseen : b.seen a w = true
        · rw [procChannels_cons_seen a b w rest o hsup hseen] at hok ⊢
          by_cases h1 : (takeOracle o).1
          · rw [if_pos h1] at hok; cases hok
          · rw [if_neg h1] at hok ⊢
            simp only at hok ⊢
            rcases List.mem_cons.mp hv with hv | hv
            · subst hv; exact List.mem_cons_self _ _
            · exact List.mem_cons_of_mem _ (ih b (takeOracle o).2 hok v hv hsupv)
        · have hseen' : b.seen a w = false := by simpa using hseen
          obtain ⟨meta, hm, he⟩ := entity_of_supported b a w hsup
          rw [procChannels_cons_fresh a b w rest o _ hsup hseen' he] at hok ⊢
          by_cases h1 : (takeOracle o).1
          · rw [if_pos h1] at hok; cases hok
          · by_cases h2 : (takeOracle (takeOracle o).2).1
            · rw [if_neg h1, if_pos h2] at hok; cases hok
            · rw [if_neg h1, if_neg h2] at hok ⊢
              simp only at hok ⊢
              rcases List.mem_cons.mp hv with hv | hv
              · subst hv
                exact List.mem_cons_of_mem _ (List.mem_cons_self _ _)
              · have : stateMsg a v ∈ (procChannels a (b.mark a w) rest
                    (takeOracle (takeOracle o).2).2).pubs :=
                  ih (b.mark a w) (takeOracle (takeOracle o).2).2 hok v hv hsupv
                exact List.mem_cons_of_mem _ (List.mem_cons_of_mem _ this)
      · have hsup' : b.supported w = false := by simpa using hsup
        rw [procChannels_cons_unsupported a b w rest o hsup'] at hok ⊢
        rcases List.mem_cons.mp hv with hv | hv
        · subst hv; rw [hsupv] at hsup'; cases hsup'
        · exact ih b o hok v hv hsupv

theorem seen_proc_mono (a : Airrohr) (l : List SensorDataValue) (b : Bridge)
    (o : List Bool) (v : SensorDataValue) (h : b.seen a v = true) :
    ((procChannels a b l o).bridge).seen a v = true := by
  rw [seen_eq_markedB] at h ⊢
  exact markedB_proc_mono a l _ _ b o h

theorem procChannels_allSeen (a : Airrohr) (l : List SensorDataValue) :
    ∀ (b : Bridge) (o : List Bool), hasDev b a.name = true →
      (procChannels a b l o).status = Status.Ok →
      ∀ v ∈ l, b.supported v = true →
        ((procChannels a b l o).bridge).seen a v = true := by
  induction l with
  | nil => intro b o hdev hok v hv; cases hv
  | cons w rest ih =>
      intro b o hdev hok v hv hsupv
      by_cases hsup : b.supported w = true
      · by_cases hseen : b.seen a w = true
        · rw [procChannels_cons_seen a b w rest o hsup hseen] at hok ⊢
          by_cases h1 : (takeOracle o).1
          · rw [if_pos h1] at hok; cases hok
          · rw [if_neg h1] at hok ⊢
            simp only at hok ⊢
            rcases List.mem_cons.mp hv with hv | hv
            · subst hv
              exact seen_proc_mono a rest b (takeOracle o).2 v hseen
            · exact ih b (takeOracle o).2 hdev hok v hv hsupv
        · have hseen' : b.seen a w = false := by simpa using hseen
          obtain ⟨meta, hm, he⟩ := entity_of_supported b a w hsup
          rw [procChannels_cons_fresh a b w rest o _ hsup hseen' he] at hok ⊢
          by_cases h1 : (takeOracle o).1
          · rw [if_pos h1] at hok; cases hok
          · by_cases h2 : (takeOracle (takeOracle o).2).1
            · rw [if_neg h1, if_pos h2] at hok; cases hok
            · rw [if_neg h1, if_neg h2] at hok ⊢
              simp only at hok ⊢
              have hmarkseen : (b.mark a w).seen a w = true := by
                rw [seen_eq_markedB]
                exact markedB_mark_hit b a w hdev
              have hdev' : hasDev (b.mark a w) a.name = true := by
                rw [hasDev_mark]; exact hdev
              rcases List.mem_cons.mp hv with hv | hv
              · rw [hv]
                exact seen_proc_mono a rest (b.mark a w) _ w hmarkseen
              · exact ih (b.mark a w) _ hdev' hok v hv hsupv
      · have hsup' : b.supported w = false := by simpa using hsup
        rw [procChannels_cons_unsupported a b w rest o hsup'] at hok ⊢
        rcases List.mem_cons.mp hv with hv | hv
        · subst hv; rw [hsupv] at hsup'; cases hsup'
        · exact ih b o hdev hok v hv hsupv

theorem procChannels_replay (a : Airrohr) (l : List SensorDataValue) :
    ∀ b : Bridge, (∀ v ∈ l, b.supported v = true → b.seen a v = true) →
      procChannels a b l [] =
        ⟨Status.Ok, b, (l.filter fun v => b.supported v).map (stateMsg a), []⟩ := by
  induction l with
  | nil => intro b hall; simp [procChannels_nil]
  | cons v rest ih =>
      intro b hall
      by_cases hsup : b.supported v = true
      · have hseen : b.seen a v = true :=
          hall v (List.mem_cons_self _ _) hsup
        rw [procChannels_cons_seen a b v rest [] hsup hseen]
        have hrec := ih b (fun w hw hs => hall w (List.mem_cons_of_mem _ hw) hs)
        simp [takeOracle, hrec, List.filter_cons, hsup]
      · have hsup' : b.supported v = false := by simpa using hsup
        rw [procChannels_cons_unsupported a b v rest [] hsup']
        have hrec := ih b (fun w hw hs => hall w (List.mem_cons_of_mem _ hw) hs)
        simp [takeOracle, hrec, List.filter_cons, hsup']

theorem update_device_of_hasDev (b : Bridge) (m : Measurement)
    (h : hasDev b m.airrohr.name = true) : b.update_device m = b := by
  unfold hasDev at h
  unfold Bridge.update_device
  cases hd : alookup b.devices m.airrohr.name with
  | some d => rfl
  | none => rw [hd] at h; cases h

theorem procChannels_all_unsupported (a : Airrohr) (l : List SensorDataValue) :
    ∀ (b : Bridge) (o : List Bool), (∀ v ∈ l, b.supported v = false) →
      procChannels a b l o = ⟨Status.Ok, b, [], o⟩ := by
  induction l with
  | nil => intro b o h; rfl
  | cons v rest ih =>
      intro b o h
      rw [procChannels_cons_unsupported a b v rest o (h v (List.mem_cons_self _ _))]
      exact ih b o (fun w hw => h w (List.mem_cons_of_mem _ hw))

theorem countP_config_map_state (a : Airrohr) (xs : List SensorDataValue) :
    ((xs.map (stateMsg a)).countP isConfigPub) = 0 := by
  induction xs with
  | nil => rfl
  | cons x r ih => simp [List.countP_cons, isConfigPub, stateMsg, ih]

theorem api_nil_oracle_ok (b : Bridge) (m : Measurement) :
    (api b (some m) []).status = Status.Ok := by
  rw [api_some]
  exact (procChannels_nil_oracle m.airrohr m.sensordatavalues (b.update_device m)).1

/-! ### The claims -/

/-- C10: for every request body that fails to deserialize as a Measurement
(modelled as `none` arriving from the external parse), the handler returns
BadRequest, publishes no message, and leaves the bridge state — device map
and every announced-set — unchanged. -/
theorem c10_bad_request (b : Bridge) (o : List Bool) :
    api b none o = ⟨Status.BadRequest, b, []⟩ := rfl

/-- C9: for every measurement all of whose channels have value_types absent
from the catalog, the handler returns Ok (Accepted) and publishes nothing;
an unsupported channel is silently skipped and never fails the request. -/
theorem c9_unsupported_skipped (b : Bridge) (m : Measurement) (o : List Bool)
    (h : ∀ v ∈ m.sensordatavalues, b.supported v = false) :
    api b (some m) o = ⟨Status.Ok, b.update_device m, []⟩ := by
  rw [api_some]
  have h' : ∀ v ∈ m.sensordatavalues, (b.update_device m).supported v = false := by
    intro v hv
    rw [supported_congr (sensors_update b m) v]
    exact h v hv
  rw [procChannels_all_unsupported m.airrohr m.sensordatavalues
    (b.update_device m) o h']

/-- Witness for C9 at a concrete input: one channel whose value_type is
absent from the catalog. -/
theorem c9_unsupported_skipped_witness :
    (∀ v ∈ (⟨⟨"abc123", "1.0"⟩, [⟨"foo", "1"⟩]⟩ : Measurement).sensordatavalues,
        (⟨[], [("SDS_P2", ⟨"pm25", "ugm3", "tmpl"⟩)]⟩ : Bridge).supported v = false) ∧
    api ⟨[], [("SDS_P2", ⟨"pm25", "ugm3", "tmpl"⟩)]⟩
        (some ⟨⟨"abc123", "1.0"⟩, [⟨"foo", "1"⟩]⟩) [] =
      ⟨Status.Ok,
       Bridge.update_device ⟨[], [("SDS_P2", ⟨"pm25", "ugm3", "tmpl"⟩)]⟩
         ⟨⟨"abc123", "1.0"⟩, [⟨"foo", "1"⟩]⟩, []⟩ :=
  ⟨by decide, c9_unsupported_skipped _ _ _ (by decide)⟩

/-- C2: for every device identity (hardware id `did`) and value_type `t`,
across any sequence of handler calls within one process lifetime (starting
from the empty registry, under arbitrary publish outcomes), the discovery
(config) message for the pair is published at most once, even if the
channel appears in every request. -/
theorem c2_discovery_at_most_once (catalog : List (String × Sensor))
    (calls : List (Measurement × List Bool)) (did t : String) :
    discCount did t (runCalls ⟨[], catalog⟩ calls).2 ≤ 1 :=
  (runCalls_discCount did t calls ⟨[], catalog⟩).2 rfl

/-- C3: on every request on which the handler returns Ok (Accepted), a
state message is published for every channel of the measurement whose
value_type is present in the catalog, regardless of whether a discovery
message was needed on that call. -/
theorem c3_state_published_for_supported (b : Bridge) (m : Measurement)
    (o : List Bool) (hok : (api b (some m) o).status = Status.Ok)
    (v : SensorDataValue) (hv : v ∈ m.sensordatavalues)
    (hsup : b.supported v = true) :
    stateMsg m.airrohr v ∈ (api b (some m) o).pubs := by
  rw [api_some] at hok ⊢
  exact procChannels_state_mem m.airrohr m.sensordatavalues (b.update_device m)
    o hok v hv (by rw [supported_congr (sensors_update b m) v]; exact hsup)

/-- Witness for C3 at a concrete input: a fresh channel (discovery needed)
still gets its state message. -/
theorem c3_state_published_for_supported_witness :
    (api ⟨[], [("SDS_P2", ⟨"pm25", "ugm3", "tmpl"⟩)]⟩
        (some ⟨⟨"abc123", "1.0"⟩, [⟨"SDS_P2", "7.5"⟩]⟩) []).status = Status.Ok ∧
    (⟨"SDS_P2", "7.5"⟩ : SensorDataValue) ∈
      (⟨⟨"abc123", "1.0"⟩, [⟨"SDS_P2", "7.5"⟩]⟩ : Measurement).sensordatavalues ∧
    (⟨[], [("SDS_P2", ⟨"pm25", "ugm3", "tmpl"⟩)]⟩ : Bridge).supported
      ⟨"SDS_P2", "7.5"⟩ = true ∧
    stateMsg ⟨"abc123", "1.0"⟩ ⟨"SDS_P2", "7.5"⟩ ∈
      (api ⟨[], [("SDS_P2", ⟨"pm25", "ugm3", "tmpl"⟩)]⟩
        (some ⟨⟨"abc123", "1.0"⟩, [⟨"SDS_P2", "7.5"⟩]⟩) []).pubs :=
  ⟨by decide, by decide, by decide,
   c3_state_published_for_supported _ _ _ (by decide) _ (by decide) (by decide)⟩

/-- C7: in every handler call, every discovery message is published at the
durable delivery-quality level (QoS 1, the code's `Message::new(.., 1)`)
and every state message at the best-effort level (QoS 0). -/
theorem c7_qos_levels (b : Bridge) (m : Measurement) (o : List Bool) (p : Pub)
    (hp : p ∈ (api b (some m) o).pubs) :
    (isConfigPub p = true → p.qos = 1) ∧ (isConfigPub p = false → p.qos = 0) := by
  rw [api_some] at hp
  exact procChannels_qos m.airrohr m.sensordatavalues (b.update_device m) o p hp

/-- Witness for C7 at a concrete input: the discovery publish of a fresh
channel has QoS 1. -/
theorem c7_qos_levels_witness :
    (⟨"homeassistant/sensor/airrohr-abc123/SDS_P2/config",
      Payload.config ⟨Device.new ⟨"abc123", "1.0"⟩,
        ⟨"airrohr-abc123-SDS_P2", "airrohr/airrohr-abc123/SDS_P2",
         "airrohr-abc123-SDS_P2", "pm25", "ugm3", "tmpl"⟩⟩, 1⟩ : Pub) ∈
      (api ⟨[], [("SDS_P2", ⟨"pm25", "ugm3", "tmpl"⟩)]⟩
        (some ⟨⟨"abc123", "1.0"⟩, [⟨"SDS_P2", "7.5"⟩]⟩) []).pubs ∧
    ((isConfigPub ⟨"homeassistant/sensor/airrohr-abc123/SDS_P2/config",
        Payload.config ⟨Device.new ⟨"abc123", "1.0"⟩,
          ⟨"airrohr-abc123-SDS_P2", "airrohr/airrohr-abc123/SDS_P2",
           "airrohr-abc123-SDS_P2", "pm25", "ugm3", "tmpl"⟩⟩, 1⟩ = true →
        (⟨"homeassistant/sensor/airrohr-abc123/SDS_P2/config",
          Payload.config ⟨Device.new ⟨"abc123", "1.0"⟩,
            ⟨"airrohr-abc123-SDS_P2", "airrohr/airrohr-abc123/SDS_P2",
             "airrohr-abc123-SDS_P2", "pm25", "ugm3", "tmpl"⟩⟩, 1⟩ : Pub).qos = 1) ∧
      (isConfigPub ⟨"homeassistant/sensor/airrohr-abc123/SDS_P2/config",
        Payload.config ⟨Device.new ⟨"abc123", "1.0"⟩,
          ⟨"airrohr-abc123-SDS_P2", "airrohr/airrohr-abc123/SDS_P2",
           "airrohr-abc123-SDS_P2", "pm25", "ugm3", "tmpl"⟩⟩, 1⟩ = false →
        (⟨"homeassistant/sensor/airrohr-abc123/SDS_P2/config",
          Payload.config ⟨Device.new ⟨"abc123", "1.0"⟩,
            ⟨"airrohr-abc123-SDS_P2", "airrohr/airrohr-abc123/SDS_P2",
             "airrohr-abc123-SDS_P2", "pm25", "ugm3", "tmpl"⟩⟩, 1⟩ : Pub).qos = 0)) :=
  ⟨by decide,
   c7_qos_levels ⟨[], [("SDS_P2", ⟨"pm25", "ugm3", "tmpl"⟩)]⟩
     ⟨⟨"abc123", "1.0"⟩, [⟨"SDS_P2", "7.5"⟩]⟩ [] _ (by decide)⟩

/-- C4: after a fully successful handler call on measurement `m`, replaying
the identical measurement (with every publish succeeding) produces zero
discovery publishes — every supported channel is already announced — and
exactly one state publish per supported channel, in request order, with the
bridge state unchanged. -/
theorem c4_idempotent_replay (b : Bridge) (m : Measurement) (o : List Bool)
    (hok : (api b (some m) o).status = Status.Ok) :
    api ((api b (some m) o).bridge) (some m) [] =
      ⟨Status.Ok, (api b (some m) o).bridge,
       (m.sensordatavalues.filter fun v => b.supported v).map (stateMsg m.airrohr)⟩ ∧
    ((api ((api b (some m) o).bridge) (some m) []).pubs).countP isConfigPub = 0 := by
  rw [api_some] at hok
  have hdev0 : hasDev (b.update_device m) m.airrohr.name = true :=
    hasDev_update_self b m
  have hdev1 : hasDev ((procChannels m.airrohr (b.update_device m)
      m.sensordatavalues o).bridge) m.airrohr.name = true :=
    hasDev_proc m.airrohr m.sensordatavalues m.airrohr.name (b.update_device m) o hdev0
  have hsens1 : ((procChannels m.airrohr (b.update_device m)
      m.sensordatavalues o).bridge).sensors = b.sensors := by
    rw [sensors_proc, sensors_update]
  have hsens0 : ((procChannels m.airrohr (b.update_device m)
      m.sensordatavalues o).bridge).sensors = (b.update_device m).sensors := by
    rw [sensors_proc]
  have hall : ∀ v ∈ m.sensordatavalues,
      ((procChannels m.airrohr (b.update_device m)
        m.sensordatavalues o).bridge).supported v = true →
      ((procChannels m.airrohr (b.update_device m)
        m.sensordatavalues o).bridge).seen m.airrohr v = true := by
    intro v hv hs
    refine procChannels_allSeen m.airrohr m.sensordatavalues (b.update_device m)
      o hdev0 hok v hv ?_
    rw [supported_congr hsens0 v] at hs
    exact hs
  have hrep := procChannels_replay m.airrohr m.sensordatavalues
    ((procChannels m.airrohr (b.update_device m) m.sensordatavalues o).bridge) hall
  have hupd := update_device_of_hasDev
    ((procChannels m.airrohr (b.update_device m) m.sensordatavalues o).bridge) m hdev1
  have hfun : (fun v => ((procChannels m.airrohr (b.update_device m)
      m.sensordatavalues o).bridge).supported v) = (fun v => b.supported v) :=
    funext (fun v => supported_congr hsens1 v)
  have hb1 : (api b (some m) o).bridge =
      (procChannels m.airrohr (b.update_device m) m.sensordatavalues o).bridge := rfl
  constructor
  · rw [hb1, api_some, hupd, hrep, hfun]
  · rw [hb1, api_some, hupd, hrep, hfun]
    exact countP_config_map_state m.airrohr _

/-- Witness for C4 at a concrete input: one supported channel, successful
first call, then replay. -/
theorem c4_idempotent_replay_witness :
    (api ⟨[], [("SDS_P2", ⟨"pm25", "ugm3", "tmpl"⟩)]⟩
      (some ⟨⟨"abc123", "1.0"⟩, [⟨"SDS_P2", "7.5"⟩]⟩) []).status = Status.Ok ∧
    (api ((api ⟨[], [("SDS_P2", ⟨"pm25", "ugm3", "tmpl"⟩)]⟩
        (some ⟨⟨"abc123", "1.0"⟩, [⟨"SDS_P2", "7.5"⟩]⟩) []).bridge)
      (some ⟨⟨"abc123", "1.0"⟩, [⟨"SDS_P2", "7.5"⟩]⟩) [] =
        ⟨Status.Ok,
         (api ⟨[], [("SDS_P2", ⟨"pm25", "ugm3", "tmpl"⟩)]⟩
           (some ⟨⟨"abc123", "1.0"⟩, [⟨"SDS_P2", "7.5"⟩]⟩) []).bridge,
         ((⟨⟨"abc123", "1.0"⟩, [⟨"SDS_P2", "7.5"⟩]⟩ : Measurement).sensordatavalues.filter
             fun v => Bridge.supported ⟨[], [("SDS_P2", ⟨"pm25", "ugm3", "tmpl"⟩)]⟩ v).map
           (stateMsg ⟨"abc123", "1.0"⟩)⟩ ∧
     ((api ((api ⟨[], [("SDS_P2", ⟨"pm25", "ugm3", "tmpl"⟩)]⟩
         (some ⟨⟨"abc123", "1.0"⟩, [⟨"SDS_P2", "7.5"⟩]⟩) []).bridge)
       (some ⟨⟨"abc123", "1.0"⟩, [⟨"SDS_P2", "7.5"⟩]⟩) []).pubs).countP isConfigPub = 0) :=
  ⟨by decide,
   c4_idempotent_replay ⟨[], [("SDS_P2", ⟨"pm25", "ugm3", "tmpl"⟩)]⟩
     ⟨⟨"abc123", "1.0"⟩, [⟨"SDS_P2", "7.5"⟩]⟩ [] (by decide)⟩

/-- C1 counterexample: with catalog containing SDS_P2, the measurement
abc123/[("SDS_P2","7.5")] and a failing first (discovery) publish, the
handler returns InternalServerError — but the failing channel IS marked
announced (`seen` is true afterwards), contradicting the claim's "the
failing channel is NOT marked announced": `advertise` inserts into the
announced-set regardless of the publish result (main.rs lines 195-206). -/
theorem c1_counterexample :
    (api ⟨[], [("SDS_P2", ⟨"pm25", "ugm3", "tmpl"⟩)]⟩
        (some ⟨⟨"abc123", "1.0"⟩, [⟨"SDS_P2", "7.5"⟩]⟩) [true]).status =
      Status.InternalServerError ∧
    ((api ⟨[], [("SDS_P2", ⟨"pm25", "ugm3", "tmpl"⟩)]⟩
        (some ⟨⟨"abc123", "1.0"⟩, [⟨"SDS_P2", "7.5"⟩]⟩) [true]).bridge).seen
      ⟨"abc123", "1.0"⟩ ⟨"SDS_P2", "7.5"⟩ = true :=
  ⟨by decide, by decide⟩

/-- C1 (amended): if the discovery publish for a supported, not-yet-seen
channel `v` fails (next oracle entry true) after a prefix `pre` of the
measurement was processed successfully, the handler stops with
InternalServerError immediately: no later channel (`post`) is processed,
the publish log is exactly the prefix's log plus the failing discovery
message, announced-marks made while processing `pre` are kept — and, unlike
the original claim, the failing channel itself IS ALSO marked announced
(the result bridge is the prefix bridge with `v` marked). -/
theorem c1_discovery_failure (a : Airrohr) (b : Bridge)
    (pre post : List SensorDataValue) (v : SensorDataValue)
    (o o2 : List Bool) (e : Entity)
    (hok : (procChannels a b pre o).status = Status.Ok)
    (horacle : (procChannels a b pre o).oracle = true :: o2)
    (hsup : ((procChannels a b pre o).bridge).supported v = true)
    (hseen : ((procChannels a b pre o).bridge).seen a v = false)
    (he : Entity.new a v.value_type
        (((procChannels a b pre o).bridge).device_class v)
        (((procChannels a b pre o).bridge).unit_of_measurement v)
        (((procChannels a b pre o).bridge).value_template v) = some e) :
    procChannels a b (pre ++ v :: post) o =
      ⟨Status.InternalServerError, ((procChannels a b pre o).bridge).mark a v,
       (procChannels a b pre o).pubs ++
         [⟨discTopic a v.value_type, Payload.config ⟨Device.new a, e⟩, 1⟩],
       o2⟩ := by
  rw [procChannels_append_ok a pre b o (v :: post) hok]
  rw [procChannels_cons_fresh a ((procChannels a b pre o).bridge) v post
    ((procChannels a b pre o).oracle) e hsup hseen he]
  rw [horacle]
  simp [takeOracle]

/-- Witness for C1's amended theorem at a concrete input: empty prefix,
failing discovery publish for SDS_P2. -/
theorem c1_discovery_failure_witness :
    (procChannels ⟨"abc123", "1.0"⟩
        ⟨[("airrohr-abc123", ⟨[]⟩)], [("SDS_P2", ⟨"pm25", "ugm3", "tmpl"⟩)]⟩
        [] [true]).status = Status.Ok ∧
    (procChannels ⟨"abc123", "1.0"⟩
        ⟨[("airrohr-abc123", ⟨[]⟩)], [("SDS_P2", ⟨"pm25", "ugm3", "tmpl"⟩)]⟩
        [] [true]).oracle = true :: [] ∧
    procChannels ⟨"abc123", "1.0"⟩
        ⟨[("airrohr-abc123", ⟨[]⟩)], [("SDS_P2", ⟨"pm25", "ugm3", "tmpl"⟩)]⟩
        ([] ++ ⟨"SDS_P2", "7.5"⟩ :: []) [true] =
      ⟨Status.InternalServerError,
       ((procChannels ⟨"abc123", "1.0"⟩
          ⟨[("airrohr-abc123", ⟨[]⟩)], [("SDS_P2", ⟨"pm25", "ugm3", "tmpl"⟩)]⟩
          [] [true]).bridge).mark ⟨"abc123", "1.0"⟩ ⟨"SDS_P2", "7.5"⟩,
       (procChannels ⟨"abc123", "1.0"⟩
          ⟨[("airrohr-abc123", ⟨[]⟩)], [("SDS_P2", ⟨"pm25", "ugm3", "tmpl"⟩)]⟩
          [] [true]).pubs ++
         [⟨discTopic ⟨"abc123", "1.0"⟩ "SDS_P2",
           Payload.config ⟨Device.new ⟨"abc123", "1.0"⟩,
             ⟨"airrohr-abc123-SDS_P2", "airrohr/airrohr-abc123/SDS_P2",
              "airrohr-abc123-SDS_P2", "pm25", "ugm3", "tmpl"⟩⟩, 1⟩],
       []⟩ :=
  ⟨by decide, by decide,
   c1_discovery_failure ⟨"abc123", "1.0"⟩
     ⟨[("airrohr-abc123", ⟨[]⟩)], [("SDS_P2", ⟨"pm25", "ugm3", "tmpl"⟩)]⟩
     [] [] ⟨"SDS_P2", "7.5"⟩ [true] [] _
     (by decide) (by decide) (by decide) (by decide) (by decide)⟩

/-- C5 (spec-modelled, authorization mode absent from src): with
trust-on-first-use enabled, the first handler call from a new device
identity presenting key K succeeds (with all publishes succeeding) and
binds K; a subsequent call from the same identity presenting a different
key K' returns Unauthorized and produces no publishes. -/
theorem c5_trust_on_first_use (ab : AuthBridge) (m : Measurement)
    (k k' : String) (hnew : alookup ab.keys m.airrohr.name = none)
    (hne : k' ≠ k) :
    (apiAuth ab (some m) k []).status = Status.Ok ∧
    alookup ((apiAuth ab (some m) k []).ab).keys m.airrohr.name = some k ∧
    (apiAuth ((apiAuth ab (some m) k []).ab) (some m) k' []).status =
      Status.Unauthorized ∧
    (apiAuth ((apiAuth ab (some m) k []).ab) (some m) k' []).pubs = [] := by
  have hauth1 : authorize ab m.airrohr.name k =
      (true, ⟨ab.bridge, ab.keys ++ [(m.airrohr.name, k)]⟩) := by
    unfold authorize
    rw [hnew]
  have h1 : apiAuth ab (some m) k [] =
      ⟨(api ab.bridge (some m) []).status,
       ⟨(api ab.bridge (some m) []).bridge, ab.keys ++ [(m.airrohr.name, k)]⟩,
       (api ab.bridge (some m) []).pubs⟩ := by
    simp [apiAuth, hauth1]
  have hbound : alookup ((apiAuth ab (some m) k []).ab).keys m.airrohr.name =
      some k := by
    rw [h1]
    show alookup (ab.keys ++ [(m.airrohr.name, k)]) m.airrohr.name = some k
    rw [alookup_append, hnew]
    simp [alookup]
  have hauth2 : authorize ((apiAuth ab (some m) k []).ab) m.airrohr.name k' =
      (decide (k = k'), (apiAuth ab (some m) k []).ab) := by
    unfold authorize
    rw [hbound]
  have hdk : decide (k = k') = false :=
    decide_eq_false (fun hc => hne hc.symm)
  have h2' : ∀ X : AuthBridge, authorize X m.airrohr.name k' = (decide (k = k'), X) →
      apiAuth X (some m) k' [] = ⟨Status.Unauthorized, X, []⟩ := by
    intro X hX
    simp [apiAuth, hX, hdk]
  have h2 := h2' ((apiAuth ab (some m) k []).ab) hauth2
  refine ⟨?_, hbound, ?_, ?_⟩
  · rw [h1]
    exact api_nil_oracle_ok ab.bridge m
  · rw [h2]
  · rw [h2]

/-- Witness for C5 at a concrete input: fresh identity, key "secret",
then key "wrong". -/
theorem c5_trust_on_first_use_witness :
    alookup (⟨⟨[], [("SDS_P2", ⟨"pm25", "ugm3", "tmpl"⟩)]⟩, []⟩ : AuthBridge).keys
      (⟨⟨"abc123", "1.0"⟩, [⟨"SDS_P2", "7.5"⟩]⟩ : Measurement).airrohr.name = none ∧
    ("wrong" : String) ≠ "secret" ∧
    ((apiAuth ⟨⟨[], [("SDS_P2", ⟨"pm25", "ugm3", "tmpl"⟩)]⟩, []⟩
        (some ⟨⟨"abc123", "1.0"⟩, [⟨"SDS_P2", "7.5"⟩]⟩) "secret" []).status = Status.Ok ∧
     alookup ((apiAuth ⟨⟨[], [("SDS_P2", ⟨"pm25", "ugm3", "tmpl"⟩)]⟩, []⟩
        (some ⟨⟨"abc123", "1.0"⟩, [⟨"SDS_P2", "7.5"⟩]⟩) "secret" []).ab).keys
        (⟨⟨"abc123", "1.0"⟩, [⟨"SDS_P2", "7.5"⟩]⟩ : Measurement).airrohr.name =
       some "secret" ∧
     (apiAuth ((apiAuth ⟨⟨[], [("SDS_P2", ⟨"pm25", "ugm3", "tmpl"⟩)]⟩, []⟩
          (some ⟨⟨"abc123", "1.0"⟩, [⟨"SDS_P2", "7.5"⟩]⟩) "secret" []).ab)
        (some ⟨⟨"abc123", "1.0"⟩, [⟨"SDS_P2", "7.5"⟩]⟩) "wrong" []).status =
       Status.Unauthorized ∧
     (apiAuth ((apiAuth ⟨⟨[], [("SDS_P2", ⟨"pm25", "ugm3", "tmpl"⟩)]⟩, []⟩
          (some ⟨⟨"abc123", "1.0"⟩, [⟨"SDS_P2", "7.5"⟩]⟩) "secret" []).ab)
        (some ⟨⟨"abc123", "1.0"⟩, [⟨"SDS_P2", "7.5"⟩]⟩) "wrong" []).pubs = []) :=
  ⟨by decide, by decide,
   c5_trust_on_first_use ⟨⟨[], [("SDS_P2", ⟨"pm25", "ugm3", "tmpl"⟩)]⟩, []⟩
     ⟨⟨"abc123", "1.0"⟩, [⟨"SDS_P2", "7.5"⟩]⟩ "secret" "wrong"
     (by decide) (by decide)⟩

/-- C6 counterexample: on the spec's example (first contact, catalog with
SDS_P2 and signal, channels SDS_P2 then signal), the handler does NOT
perform "two discovery publishes then two state publishes": the QoS
sequence of the log is [1, 0, 1, 0] (discovery, state, discovery, state) —
the second publish is already a state message — not [1, 1, 0, 0]. -/
theorem c6_counterexample :
    (api ⟨[], [("SDS_P2", ⟨"pm25", "ugm3", "tmpl"⟩),
               ("signal", ⟨"signal_strength", "dBm", "tmpl"⟩)]⟩
        (some ⟨⟨"abc123", "1.0"⟩, [⟨"SDS_P2", "7.5"⟩, ⟨"signal", "-70"⟩]⟩)
        []).pubs.map Pub.qos = [1, 0, 1, 0] ∧
    ¬ ((api ⟨[], [("SDS_P2", ⟨"pm25", "ugm3", "tmpl"⟩),
               ("signal", ⟨"signal_strength", "dBm", "tmpl"⟩)]⟩
        (some ⟨⟨"abc123", "1.0"⟩, [⟨"SDS_P2", "7.5"⟩, ⟨"signal", "-70"⟩]⟩)
        []).pubs.map Pub.qos = [1, 1, 0, 0]) :=
  ⟨by decide, by decide⟩

/-- C6 (amended): on first contact the handler performs, per channel in
order (SDS_P2 before signal), a discovery publish immediately followed by a
state publish — so four publishes: discovery SDS_P2, state SDS_P2,
discovery signal, state signal; on immediate replay it performs zero
discovery publishes and exactly the two state publishes. -/
theorem c6_example_run :
    (api ⟨[], [("SDS_P2", ⟨"pm25", "ugm3", "tmpl"⟩),
               ("signal", ⟨"signal_strength", "dBm", "tmpl"⟩)]⟩
        (some ⟨⟨"abc123", "1.0"⟩, [⟨"SDS_P2", "7.5"⟩, ⟨"signal", "-70"⟩]⟩)
        []).status = Status.Ok ∧
    (api ⟨[], [("SDS_P2", ⟨"pm25", "ugm3", "tmpl"⟩),
               ("signal", ⟨"signal_strength", "dBm", "tmpl"⟩)]⟩
        (some ⟨⟨"abc123", "1.0"⟩, [⟨"SDS_P2", "7.5"⟩, ⟨"signal", "-70"⟩]⟩)
        []).pubs.map (fun p => (p.topic, p.qos)) =
      [("homeassistant/sensor/airrohr-abc123/SDS_P2/config", 1),
       ("airrohr/airrohr-abc123/SDS_P2", 0),
       ("homeassistant/sensor/airrohr-abc123/signal/config", 1),
       ("airrohr/airrohr-abc123/signal", 0)] ∧
    (api ((api ⟨[], [("SDS_P2", ⟨"pm25", "ugm3", "tmpl"⟩),
               ("signal", ⟨"signal_strength", "dBm", "tmpl"⟩)]⟩
        (some ⟨⟨"abc123", "1.0"⟩, [⟨"SDS_P2", "7.5"⟩, ⟨"signal", "-70"⟩]⟩)
        []).bridge)
      (some ⟨⟨"abc123", "1.0"⟩, [⟨"SDS_P2", "7.5"⟩, ⟨"signal", "-70"⟩]⟩)
      []).status = Status.Ok ∧
    (api ((api ⟨[], [("SDS_P2", ⟨"pm25", "ugm3", "tmpl"⟩),
               ("signal", ⟨"signal_strength", "dBm", "tmpl"⟩)]⟩
        (some ⟨⟨"abc123", "1.0"⟩, [⟨"SDS_P2", "7.5"⟩, ⟨"signal", "-70"⟩]⟩)
        []).bridge)
      (some ⟨⟨"abc123", "1.0"⟩, [⟨"SDS_P2", "7.5"⟩, ⟨"signal", "-70"⟩]⟩)
      []).pubs.map (fun p => (p.topic, p.qos)) =
      [("airrohr/airrohr-abc123/SDS_P2", 0),
       ("airrohr/airrohr-abc123/signal", 0)] :=
  ⟨by decide, by decide, by decide, by decide⟩

/-- C8: for a device with hardware id `hw` and a supported value_type `t`:
the device name is "airrohr-" ++ hw; the discovery message goes to topic
"homeassistant/sensor/airrohr-" ++ hw ++ "/" ++ t ++ "/config"; the state
message goes to topic "airrohr/airrohr-" ++ hw ++ "/" ++ t with the raw
value string as body; and the produced entity's unique_id and name both
equal "airrohr-" ++ hw ++ "-" ++ t. -/
theorem c8_naming_topics_ids (b : Bridge) (hw sw t val : String)
    (meta : Sensor) (o : List Bool)
    (hmeta : alookup b.sensors t = some meta) :
    (Airrohr.mk hw sw).name = "airrohr-" ++ hw ∧
    b.advertise ⟨hw, sw⟩ ⟨t, val⟩ o =
      ⟨(takeOracle o).1, b.mark ⟨hw, sw⟩ ⟨t, val⟩,
       [⟨"homeassistant/sensor/airrohr-" ++ hw ++ "/" ++ t ++ "/config",
         Payload.config ⟨Device.new ⟨hw, sw⟩,
           ⟨"airrohr-" ++ hw ++ "-" ++ t,
            "airrohr/airrohr-" ++ hw ++ "/" ++ t,
            "airrohr-" ++ hw ++ "-" ++ t,
            meta.«class», meta.unit, meta.value_template⟩⟩, 1⟩],
       (takeOracle o).2⟩ ∧
    b.send_data ⟨hw, sw⟩ ⟨t, val⟩ o =
      ⟨(takeOracle o).1,
       [⟨"airrohr/airrohr-" ++ hw ++ "/" ++ t, Payload.raw val, 0⟩],
       (takeOracle o).2⟩ := by
  have hsupp : b.supported ⟨t, val⟩ = true := by
    simp [Bridge.supported, hmeta]
  obtain ⟨meta2, hm2, he⟩ := entity_of_supported b ⟨hw, sw⟩ ⟨t, val⟩ hsupp
  rw [hmeta] at hm2
  have hmeq : meta = meta2 := Option.some.inj hm2
  subst hmeq
  refine ⟨rfl, ?_, ?_⟩
  · unfold Bridge.advertise
    rw [he]
    rfl
  · rfl

/-- Witness for C8 at a concrete input: device "abc123", channel SDS_P2. -/
theorem c8_naming_topics_ids_witness :
    alookup (⟨[], [("SDS_P2", ⟨"pm25", "ugm3", "tmpl"⟩)]⟩ : Bridge).sensors
      "SDS_P2" = some ⟨"pm25", "ugm3", "tmpl"⟩ ∧
    ((Airrohr.mk "abc123" "1.0").name = "airrohr-" ++ "abc123" ∧
     Bridge.advertise ⟨[], [("SDS_P2", ⟨"pm25", "ugm3", "tmpl"⟩)]⟩
        ⟨"abc123", "1.0"⟩ ⟨"SDS_P2", "7.5"⟩ [] =
      ⟨(takeOracle []).1,
       Bridge.mark ⟨[], [("SDS_P2", ⟨"pm25", "ugm3", "tmpl"⟩)]⟩
         ⟨"abc123", "1.0"⟩ ⟨"SDS_P2", "7.5"⟩,
       [⟨"homeassistant/sensor/airrohr-" ++ "abc123" ++ "/" ++ "SDS_P2" ++ "/config",
         Payload.config ⟨Device.new ⟨"abc123", "1.0"⟩,
           ⟨"airrohr-" ++ "abc123" ++ "-" ++ "SDS_P2",
            "airrohr/airrohr-" ++ "abc123" ++ "/" ++ "SDS_P2",
            "airrohr-" ++ "abc123" ++ "-" ++ "SDS_P2",
            (⟨"pm25", "ugm3", "tmpl"⟩ : Sensor).«class»,
            (⟨"pm25", "ugm3", "tmpl"⟩ : Sensor).unit,
            (⟨"pm25", "ugm3", "tmpl"⟩ : Sensor).value_template⟩⟩, 1⟩],
       (takeOracle []).2⟩ ∧
     Bridge.send_data ⟨[], [("SDS_P2", ⟨"pm25", "ugm3", "tmpl"⟩)]⟩
        ⟨"abc123", "1.0"⟩ ⟨"SDS_P2", "7.5"⟩ [] =
      ⟨(takeOracle []).1,
       [⟨"airrohr/airrohr-" ++ "abc123" ++ "/" ++ "SDS_P2", Payload.raw "7.5", 0⟩],
       (takeOracle []).2⟩) :=
  ⟨by decide,
   c8_naming_topics_ids ⟨[], [("SDS_P2", ⟨"pm25", "ugm3", "tmpl"⟩)]⟩
     "abc123" "1.0" "SDS_P2" "7.5" ⟨"pm25", "ugm3", "tmpl"⟩ [] (by decide)⟩

end AirrohrMqtt
